import Mathlib

/-!
Verification of the nuwa-digital-twin analysis scripts.

Shallow embedding of the algorithmic core of
`python-scripts/ndvi_calculator.py`, `python-scripts/deforestation_analysis.py`,
`python-scripts/carbon_baseline.py` and `scripts/local-analysis/analyze_farm.py`.

Modelling conventions:
- Python floats are modelled as exact rationals (`ℚ`); `round(x, d)` is
  modelled as exact round-half-to-even on rationals (`pyRound`).
- The one transcendental operation, `x ** 0.976` in the Chave allometric
  equation, is abstracted as an explicit parameter `pow976 : ℚ → ℚ` that is
  threaded through the biomass functions; both the code-side and the spec-side
  formulation apply the same parameter to the same argument, so nothing about
  it is assumed.
- Calls to the remote Earth Engine provider (`.getInfo()`, thumbnails,
  collection sizes) are modelled as fields of an explicit provider record;
  a call that raises is an `Except.error` carrying the Python exception.
- A Python function that can raise to its caller returns `Except PyExc _`;
  a function that handles all failures internally returns a plain value.
-/

/-- Round-half-to-even on a rational, as Python's builtin `round` behaves on
exact values (float representation error is idealized away). -/
def roundHalfEven (y : ℚ) : ℤ :=
  let n := ⌊y⌋
  let f := y - (n : ℚ)
  if f < 1/2 then n
  else if 1/2 < f then n + 1
  else if n % 2 = 0 then n else n + 1

/-- Python `round(x, d)`: round half-to-even at `d` decimal places. -/
def pyRound (d : ℕ) (x : ℚ) : ℚ :=
  (roundHalfEven (x * 10 ^ d) : ℚ) / 10 ^ d

/-- Substring test on strings (Python's `in` operator on `str`). -/
def substrB (needle haystack : String) : Bool :=
  decide (needle.toList <:+: haystack.toList)

/-! ## `ndvi_calculator.py`: the resilient retry executor -/

/-- The Python exceptions relevant to `retry_ee_operation`:
`ee.EEException` with its message, any other exception with its message, and
the `RuntimeError(f"{operation_name} failed after {max_retries} attempts")`
built by the executor itself (modelled structurally by its two fields). -/
inductive PyExc where
  | eeExc (msg : String)
  | otherExc (msg : String)
  | runtimeErr (opName : String) (attempts : ℕ)
deriving DecidableEq

/-- One invocation of the zero-argument operation either returns a value or
raises an exception. -/
inductive OpOutcome (α : Type) where
  | ok (a : α)
  | raise (e : PyExc)

/-- Observable trace of one call to `retry_ee_operation`: how many times the
operation was invoked, the backoff sleeps performed between attempts (in
order), and the final outcome (returned value or raised exception). -/
structure RetryTrace (α : Type) where
  calls : ℕ
  sleeps : List ℚ
  result : Except PyExc α

/-- `'timeout' in error_msg or 'rate limit' in error_msg or 'quota' in
error_msg` where `error_msg = str(e).lower()` (ndvi_calculator.py line 54). -/
def isRetryableMsg (msg : String) : Bool :=
  let m := msg.toLower
  substrB "timeout" m || substrB "rate limit" m || substrB "quota" m

/-- The retry loop of `retry_ee_operation` (ndvi_calculator.py lines 44-76).
`remaining` counts the loop iterations still to run (`max_retries - attempt`);
`attempt` is the current loop index; `lastError` models the `last_error`
variable.  The base case is the code after the loop (lines 74-76): re-raise
`last_error` if set, else raise the `RuntimeError`.  The operation is modelled
as a function of the invocation index so that each attempt may behave
differently. -/
def retryAux {α : Type} (op : ℕ → OpOutcome α) (maxRetries : ℕ) (delay : ℚ)
    (opName : String) : (remaining attempt : ℕ) → Option PyExc → RetryTrace α
  | 0, _, lastError =>
    ⟨0, [], .error (lastError.getD (.runtimeErr opName maxRetries))⟩
  | r + 1, attempt, _ =>
    match op attempt with
    | .ok a => ⟨1, [], .ok a⟩
    | .raise (.eeExc msg) =>
      if isRetryableMsg msg then
        if attempt < maxRetries - 1 then
          let rest := retryAux op maxRetries delay opName r (attempt + 1)
            (some (.eeExc msg))
          ⟨rest.calls + 1, delay * 2 ^ attempt :: rest.sleeps, rest.result⟩
        else ⟨1, [], .error (.eeExc msg)⟩
      else ⟨1, [], .error (.eeExc msg)⟩
    | .raise e => ⟨1, [], .error e⟩

/-- `retry_ee_operation(operation, max_retries, delay, operation_name)`
(ndvi_calculator.py lines 31-76). -/
def retry_ee_operation {α : Type} (op : ℕ → OpOutcome α) (maxRetries : ℕ)
    (delay : ℚ) (opName : String) : RetryTrace α :=
  retryAux op maxRetries delay opName maxRetries 0 none

/-- The operation's `i`-th invocation raises a retryable `ee.EEException`. -/
def retryableAt {α : Type} (op : ℕ → OpOutcome α) (i : ℕ) : Prop :=
  ∃ msg, op i = .raise (.eeExc msg) ∧ isRetryableMsg msg = true

/-- An exception the retry loop never retries: a non-retryable
`ee.EEException` or any non-EE exception. -/
def nonRetryableExc : PyExc → Prop
  | .eeExc msg => isRetryableMsg msg = false
  | .otherExc _ => True
  | .runtimeErr _ _ => True

/-! ## `deforestation_analysis.py`: the EUDR deforestation analyzer -/

/-- `deforestation_percent = (area_lost_ha / total_forest_ha * 100) if
total_forest_ha > 0 else 0` (deforestation_analysis.py line 96,
analyze_farm.py line 405). -/
def deforestationPercentOf (area_lost_ha total_forest_ha : ℚ) : ℚ :=
  if total_forest_ha > 0 then area_lost_ha / total_forest_ha * 100 else 0

/-- `compliant = deforestation_percent < 5` — the fixed EUDR threshold
(deforestation_analysis.py line 97, analyze_farm.py line 408). -/
def eudrCompliant (deforestation_percent : ℚ) : Bool :=
  deforestation_percent < 5

/-- Remote provider behavior for one `analyze_deforestation` run
(deforestation_analysis.py).  `areaInfo` / `lossInfo` are the outcomes of the
two `reduceRegion(...).getInfo()` calls (lines 84-85): raised exception, or
the value found under the `treecover2000` / `lossyear` key (`none` when the
key is absent, in which case `.get(key, 0)` yields 0).  `changeUrl` is the
`getThumbURL` outcome for the change-detection image (line 106);
`yearCollectionSize` and `yearThumb` are the per-year historical-image
queries (lines 127 and 130). -/
structure GeeDefo where
  areaInfo : Except PyExc (Option ℚ)
  lossInfo : Except PyExc (Option ℚ)
  changeUrl : Except PyExc String
  yearCollectionSize : ℕ → Except PyExc ℕ
  yearThumb : ℕ → Except PyExc String

/-- The result dictionary of `analyze_deforestation`
(deforestation_analysis.py lines 146-180).  `changeDetectionUrl` is `none`
when the key is absent; `warning` is `none` outside the failure branch. -/
structure DeforestationResult where
  deforestationPercent : ℚ
  areaLostHa : ℚ
  initialForestHa : ℚ
  compliant : Bool
  historicalImages : List (ℕ × String)
  startDate : String
  endDate : String
  changeDetectionUrl : Option String
  warning : Option String

/-- One iteration of the historical-image loop (deforestation_analysis.py
lines 116-144): the whole body is wrapped in `try/except`, so a failing
size query or thumbnail request merely skips the year. -/
def historicalImageFor (g : GeeDefo) (year : ℕ) : Option (ℕ × String) :=
  match g.yearCollectionSize year with
  | .error _ => none
  | .ok n =>
    if n > 0 then
      match g.yearThumb year with
      | .error _ => none
      | .ok url => some (year, url)
    else none

/-- `analyze_deforestation(polygon, start_date, end_date, project_id)`
(deforestation_analysis.py lines 30-180).  Year extraction from the date
strings (`int(start_date.split('-')[0])`) is abstracted: the parsed years are
passed alongside the date strings.  The outer `try` (line 82) covers exactly
the two `.getInfo()` fetches — the change-detection and historical-image
requests sit in their own inner `try/except` blocks — so the fail-open
default branch (lines 164-180) triggers precisely when `areaInfo` or
`lossInfo` raises. -/
def analyze_deforestation (g : GeeDefo) (start_date end_date : String)
    (startYear endYear : ℕ) : DeforestationResult :=
  match g.areaInfo, g.lossInfo with
  | .ok areaOpt, .ok lossOpt =>
    -- Pixel area in hectares (30m x 30m = 900 m2 = 0.09 ha)
    let pixel_area_ha : ℚ := 0.09
    let total_forest_pixels := areaOpt.getD 0
    let lost_pixels := lossOpt.getD 0
    -- treecover is 0-100 scale
    let total_forest_ha := total_forest_pixels * pixel_area_ha / 100
    let area_lost_ha := lost_pixels * pixel_area_ha / 100
    let deforestation_percent := deforestationPercentOf area_lost_ha total_forest_ha
    let compliant := eudrCompliant deforestation_percent
    let change_detection_url : Option String :=
      match g.changeUrl with
      | .error _ => none
      | .ok url => if url = "" then none else some url
    let historical_images :=
      ((List.range (endYear + 1 - startYear)).map (startYear + ·)).filterMap
        (historicalImageFor g)
    { deforestationPercent := pyRound 2 deforestation_percent
      areaLostHa := pyRound 2 area_lost_ha
      initialForestHa := pyRound 2 total_forest_ha
      compliant := compliant
      historicalImages := historical_images
      startDate := start_date
      endDate := end_date
      changeDetectionUrl := change_detection_url
      warning := none }
  | _, _ =>
    -- Return default values if calculation fails (lines 164-180)
    { deforestationPercent := 0
      areaLostHa := 0
      initialForestHa := 0
      compliant := true
      historicalImages := []
      startDate := start_date
      endDate := end_date
      changeDetectionUrl := none
      warning := some "Deforestation calculation failed, using default values" }

/-! ## `carbon_baseline.py`: the biomass and carbon estimation engine -/

/-- The `WOOD_DENSITY` table (carbon_baseline.py lines 23-38, duplicated in
analyze_farm.py lines 468-483), as a partial lookup. -/
def WOOD_DENSITY : String → Option ℚ
  | "Pinus caribaea" => some 0.51
  | "Pinus patula" => some 0.45
  | "Eucalyptus" => some 0.65
  | "Eucalyptus grandis" => some 0.55
  | "Acacia" => some 0.58
  | "Acacia mangium" => some 0.52
  | "Coffea arabica" => some 0.55
  | "Coffea" => some 0.55
  | "Inga" => some 0.52
  | "Cordia alliodora" => some 0.44
  | "Cedrela odorata" => some 0.42
  | "Swietenia macrophylla" => some 0.54
  | "Tectona grandis" => some 0.55
  | "default" => some 0.60
  | _ => none

/-- `WOOD_DENSITY.get(species, WOOD_DENSITY['default'])` (carbon_baseline.py
line 74); `WOOD_DENSITY['default'] = 0.60`. -/
def woodDensity (species : String) : ℚ :=
  (WOOD_DENSITY species).getD 0.60

/-- One entry of the tree inventory.  Python reads each field with `.get` and
a default, so every field is optional here; `dbh_cm` stands for the
`dbh_cm`-else-`avgDbh` chain and `height_m` for `height_m`-else-`avgHeight`
(carbon_baseline.py lines 65-68). -/
structure TreeMeasurement where
  species : Option String
  dbh_cm : Option ℚ
  height_m : Option ℚ
  count : Option ℕ

/-- The Chave et al. 2014 per-tree biomass,
`agb_kg = 0.0673 * ((rho * dbh_cm ** 2 * height_m) ** 0.976)`
(carbon_baseline.py line 78), with the `** 0.976` power abstracted as
`pow976`. -/
def treeAgbKg (pow976 : ℚ → ℚ) (rho dbh_cm height_m : ℚ) : ℚ :=
  0.0673 * pow976 (rho * dbh_cm ^ 2 * height_m)

/-- One iteration of the inventory loop in `calculate_agb_from_field_data`
(carbon_baseline.py lines 64-81), accumulating `(total_agb_kg,
trees_analyzed)`. -/
def fieldStep (pow976 : ℚ → ℚ) (acc : ℚ × ℕ) (tree : TreeMeasurement) :
    ℚ × ℕ :=
  let species := tree.species.getD "default"
  let dbh_cm := tree.dbh_cm.getD 0
  let height_m := tree.height_m.getD 0
  let count := tree.count.getD 1
  if dbh_cm ≤ 0 ∨ height_m ≤ 0 then acc
  else
    let rho := woodDensity species
    (acc.1 + treeAgbKg pow976 rho dbh_cm height_m * count, acc.2 + count)

/-- The result dictionary of `calculate_agb_from_field_data`. -/
structure FieldAgbResult where
  total_agb_kg : ℚ
  total_agb_tonnes : ℚ
  trees_analyzed : ℕ

/-- `calculate_agb_from_field_data(tree_inventory)` (carbon_baseline.py
lines 51-87). -/
def calculate_agb_from_field_data (pow976 : ℚ → ℚ)
    (tree_inventory : List TreeMeasurement) : FieldAgbResult :=
  let acc := tree_inventory.foldl (fieldStep pow976) (0, 0)
  { total_agb_kg := acc.1
    total_agb_tonnes := acc.1 / 1000
    trees_analyzed := acc.2 }

/-- Remote provider behavior for the satellite path over one fixed polygon:
`areaM2` is `aoi.area().getInfo()`, `collectionSize` the filtered Sentinel-2
collection size, `ndviMean` the value under the `NDVI` key of the
`reduceRegion` result (`none` when absent, in which case `.get('NDVI', 0.5)`
yields 0.5). -/
structure GeeSat where
  areaM2 : ℚ
  collectionSize : ℕ
  ndviMean : Option ℚ

/-- The dictionary returned by `calculate_agb_from_satellite`. -/
structure SatAgbResult where
  total_agb_tonnes : ℚ
  agb_per_ha : ℚ
  area_ha : ℚ
  ndvi_mean : ℚ
  method : String

/-- `calculate_agb_from_satellite(polygon)` (carbon_baseline.py
lines 90-172). -/
def calculate_agb_from_satellite (g : GeeSat) : SatAgbResult :=
  let area_ha := g.areaM2 / 10000
  if g.collectionSize = 0 then
    -- Default to moderate forest biomass (lines 125-134)
    { total_agb_tonnes := area_ha * 50
      agb_per_ha := 50
      area_ha := area_ha
      ndvi_mean := 0.5
      method := "default_estimation" }
  else
    let ndvi_mean := g.ndviMean.getD 0.5
    let agb_per_ha :=
      if ndvi_mean > 0.3 then max 20 (min 200 (150 * ndvi_mean ^ 2))
      else max 5 (50 * ndvi_mean)
    { total_agb_tonnes := agb_per_ha * area_ha
      agb_per_ha := agb_per_ha
      area_ha := area_ha
      ndvi_mean := ndvi_mean
      method := "ndvi_correlation" }

/-- Truthiness of `tree_inventory and len(tree_inventory) > 0`
(carbon_baseline.py lines 208, 216). -/
def nonEmptyInv : Option (List TreeMeasurement) → Bool
  | some (_ :: _) => true
  | _ => false

/-- `field_weight = min(0.7, 0.3 + (trees_analyzed / 100))`
(carbon_baseline.py line 225). -/
def fieldWeightOf (trees_analyzed : ℕ) : ℚ :=
  min 0.7 (0.3 + (trees_analyzed : ℚ) / 100)

/-- The result dictionary of `calculate_carbon_baseline` (carbon_baseline.py
lines 254-270); the `breakdown` sub-dictionary is flattened into the last two
fields. -/
structure EstimationResult where
  baselineCarbonTCO2e : ℚ
  agbTonnesPerHa : ℚ
  totalAgbTonnes : ℚ
  totalCarbonTonnes : ℚ
  areaHa : ℚ
  methodology : String
  confidence : String
  treesAnalyzed : ℕ
  abovegroundBiomass : ℚ
  belowgroundBiomass : ℚ

/-- `calculate_carbon_baseline(polygon, project_id, tree_inventory, method)`
(carbon_baseline.py lines 175-272).  The method dispatch (lines 208-238)
produces `(total_agb, agb_per_ha, trees_analyzed, confidence)`; the unit
conversions and rounding (lines 240-270) are shared. -/
def calculate_carbon_baseline (pow976 : ℚ → ℚ) (g : GeeSat)
    (tree_inventory : Option (List TreeMeasurement)) (method : String) :
    EstimationResult :=
  let area_ha := g.areaM2 / 10000
  let inv := tree_inventory.getD []
  let core : ℚ × ℚ × ℕ × String :=
    if method == "field" && nonEmptyInv tree_inventory then
      let field_result := calculate_agb_from_field_data pow976 inv
      let total_agb := field_result.total_agb_tonnes
      let agb_per_ha := if area_ha > 0 then total_agb / area_ha else 0
      let trees_analyzed := field_result.trees_analyzed
      (total_agb, agb_per_ha, trees_analyzed,
        if trees_analyzed ≥ 10 then "high" else "medium")
    else if method == "hybrid" && nonEmptyInv tree_inventory then
      let field_result := calculate_agb_from_field_data pow976 inv
      let sat_result := calculate_agb_from_satellite g
      let field_weight := fieldWeightOf field_result.trees_analyzed
      let sat_weight := 1 - field_weight
      let total_agb := field_result.total_agb_tonnes * field_weight +
        sat_result.total_agb_tonnes * sat_weight
      let agb_per_ha := if area_ha > 0 then total_agb / area_ha else 0
      (total_agb, agb_per_ha, field_result.trees_analyzed, "high")
    else
      let sat_result := calculate_agb_from_satellite g
      (sat_result.total_agb_tonnes, sat_result.agb_per_ha, 0, "medium")
  let total_agb := core.1
  let agb_per_ha := core.2.1
  let trees_analyzed := core.2.2.1
  let confidence := core.2.2.2
  -- Convert AGB to Carbon (47% of biomass is carbon)
  let total_carbon := total_agb * 0.47
  -- Add belowground biomass estimate (20% of aboveground)
  let total_carbon_with_bgb := total_carbon * 1.2
  -- Convert Carbon to CO2e (molecular weight ratio 44/12)
  let total_co2e := total_carbon_with_bgb * (44 / 12)
  { baselineCarbonTCO2e := pyRound 2 total_co2e
    agbTonnesPerHa := pyRound 2 agb_per_ha
    totalAgbTonnes := pyRound 2 total_agb
    totalCarbonTonnes := pyRound 2 total_carbon_with_bgb
    areaHa := pyRound 4 area_ha
    methodology := method
    confidence := confidence
    treesAnalyzed := trees_analyzed
    abovegroundBiomass := pyRound 2 total_carbon
    belowgroundBiomass := pyRound 2 (total_carbon * 0.2) }

/-! ## `analyze_farm.py`: geometry normalizer -/

/-- A JSON value as seen by `_strip_z_coordinates`: a number, a list, or
anything else (dict, string, null, ...). -/
inductive Coords where
  | num (q : ℚ)
  | arr (l : List Coords)
  | other

/-- `_strip_z_coordinates(coords)` (analyze_farm.py lines 48-64): a nonempty
list whose first element is a number is a vertex and is truncated to its
first two elements (`coords[:2]`); any other list is mapped over recursively;
non-lists are returned unchanged. -/
def stripZ : Coords → Coords
  | .num q => .num q
  | .other => .other
  | .arr ((.num q) :: rest) => .arr (List.take 2 ((.num q) :: rest))
  | .arr l => .arr (l.attach.map fun c => stripZ c.1)
decreasing_by
  have h := List.sizeOf_lt_of_mem c.2
  simp only [Coords.arr.sizeOf_spec]
  omega

/-- The normalized geometry `{'type': ..., 'coordinates': ...}` returned by
`_normalize_geometry`. -/
structure NormGeometry where
  type : String
  coordinates : Coords

/-- A geometry mapping as read by `_normalize_geometry`: the values under the
`type` and `coordinates` keys (absent keys modelled as `none`). -/
structure PyGeometry where
  type : Option String
  coordinates : Option Coords

/-- `_normalize_geometry(geometry)` (analyze_farm.py lines 67-98), for
mapping inputs (the non-mapping case raises before reading any key and is
outside this model).  `if not geom_type` treats the empty string as missing.
In the MultiPolygon branch, `coords_2d` must be a nonempty list whose first
element is itself a list, otherwise the function raises (`ValueError` for an
empty list; Python raises a `TypeError` on unsubscriptable values, conflated
here into the same error outcome). -/
def normalize_geometry (g : PyGeometry) : Except String NormGeometry :=
  match g.type, g.coordinates with
  | some geom_type, some coords =>
    if geom_type = "" then
      .error "Geometria invalida: falta 'type' o 'coordinates'"
    else
      let coords_2d := stripZ coords
      if geom_type = "MultiPolygon" then
        match coords_2d with
        | .arr (first :: _) =>
          match first with
          | .arr l => .ok { type := "Polygon", coordinates := .arr l }
          | _ => .error "MultiPolygon invalido: sin poligonos"
        | _ => .error "MultiPolygon invalido: sin poligonos"
      else
        .ok { type := geom_type, coordinates := coords_2d }
  | _, _ => .error "Geometria invalida: falta 'type' o 'coordinates'"

/-- A ring (list of vertices, each a list of numbers) as a `Coords` value. -/
def ringCoords (ring : List (List ℚ)) : Coords :=
  .arr (ring.map fun v => .arr (v.map Coords.num))

/-- Polygon coordinates (list of rings) as a `Coords` value. -/
def polygonCoords (rings : List (List (List ℚ))) : Coords :=
  .arr (rings.map ringCoords)

/-! ## `analyze_farm.py`: deforestation and carbon baseline -/

/-- The two `reduceRegion(...).getInfo()` aggregates fetched by
`analyze_farm.py`'s `analyze_deforestation` (lines 383-400): the value under
`treecover2000` / `lossyear`, with `none` for a missing-or-`None` value
(the code applies `.get(key, 0) or 0`). -/
structure AfDefoData where
  initialForestArea : Option ℚ
  forestLoss : Option ℚ

/-- The metric fields of the result of `analyze_farm.py`'s
`analyze_deforestation` (lines 442-452). -/
structure AfDeforestationResult where
  deforestationPercent : ℚ
  areaLostHa : ℚ
  initialForestHa : ℚ
  compliant : Bool

/-- The metric core of `analyze_farm.py`'s `analyze_deforestation`
(lines 383-452): pixel-area sums in m² are converted to hectares, then the
percentage and the EUDR verdict are computed exactly as in
`deforestation_analysis.py` (lines 403-408). -/
def af_analyze_deforestation (d : AfDefoData) : AfDeforestationResult :=
  let initial_forest_ha := (d.initialForestArea.getD 0) / 10000
  let loss_ha := (d.forestLoss.getD 0) / 10000
  let deforestation_percent := deforestationPercentOf loss_ha initial_forest_ha
  { deforestationPercent := pyRound 2 deforestation_percent
    areaLostHa := pyRound 2 loss_ha
    initialForestHa := pyRound 2 initial_forest_ha
    compliant := eudrCompliant deforestation_percent }

/-- `calculate_carbon_baseline(polygon, farm_id, tree_inventory)`
(analyze_farm.py lines 485-612).  The method is chosen by inventory presence
(line 502); the field branch (lines 503-529) duplicates the loop of
`calculate_agb_from_field_data` verbatim, so the same fold is reused here;
the satellite branch (lines 531-579) is inlined with `confidence = 'low'`
for the zero-image default.  The shared unit conversions and rounding
(lines 581-606) match `carbon_baseline.py`. -/
def af_calculate_carbon_baseline (pow976 : ℚ → ℚ) (g : GeeSat)
    (tree_inventory : Option (List TreeMeasurement)) : EstimationResult :=
  let area_ha := g.areaM2 / 10000
  let core : String × ℚ × ℚ × ℕ × String :=
    if nonEmptyInv tree_inventory then
      let field_result :=
        calculate_agb_from_field_data pow976 (tree_inventory.getD [])
      let total_agb := field_result.total_agb_tonnes
      let agb_per_ha := if area_ha > 0 then total_agb / area_ha else 0
      let trees_analyzed := field_result.trees_analyzed
      ("field", total_agb, agb_per_ha, trees_analyzed,
        if trees_analyzed ≥ 10 then "high" else "medium")
    else if g.collectionSize = 0 then
      let agb_per_ha : ℚ := 50
      ("satellite", agb_per_ha * area_ha, agb_per_ha, 0, "low")
    else
      let ndvi_mean := g.ndviMean.getD 0.5
      let agb_per_ha :=
        if ndvi_mean > 0.3 then max 20 (min 200 (150 * ndvi_mean ^ 2))
        else max 5 (50 * ndvi_mean)
      ("satellite", agb_per_ha * area_ha, agb_per_ha, 0, "medium")
  let method := core.1
  let total_agb := core.2.1
  let agb_per_ha := core.2.2.1
  let trees_analyzed := core.2.2.2.1
  let confidence := core.2.2.2.2
  let total_carbon := total_agb * 0.47
  let total_carbon_with_bgb := total_carbon * 1.2
  let total_co2e := total_carbon_with_bgb * (44 / 12)
  { baselineCarbonTCO2e := pyRound 2 total_co2e
    agbTonnesPerHa := pyRound 2 agb_per_ha
    totalAgbTonnes := pyRound 2 total_agb
    totalCarbonTonnes := pyRound 2 total_carbon_with_bgb
    areaHa := pyRound 4 area_ha
    methodology := method
    confidence := confidence
    treesAnalyzed := trees_analyzed
    abovegroundBiomass := pyRound 2 total_carbon
    belowgroundBiomass := pyRound 2 (total_carbon * 0.2) }

/-! ## Spec-side formulations (for refinement claims) -/

/-- The spec's admission filter for a tree measurement: positive diameter and
positive height. -/
def keepTree (t : TreeMeasurement) : Bool :=
  decide (t.dbh_cm.getD 0 > 0) && decide (t.height_m.getD 0 > 0)

/-- The spec's per-measurement contribution to total AGB:
`count × 0.0673 × (ρ × DBH² × H)^0.976` kilograms, with ρ looked up by exact
species (falling back to `default`). -/
def specTreeAgbKg (pow976 : ℚ → ℚ) (t : TreeMeasurement) : ℚ :=
  (t.count.getD 1 : ℚ) *
    treeAgbKg pow976 (woodDensity (t.species.getD "default"))
      (t.dbh_cm.getD 0) (t.height_m.getD 0)

/-- The spec's field-method total AGB in kilograms: the sum of admissible
measurements' contributions. -/
def specFieldAgbKg (pow976 : ℚ → ℚ) (inv : List TreeMeasurement) : ℚ :=
  ((inv.filter keepTree).map (specTreeAgbKg pow976)).sum

/-- The spec's analyzed-tree count: the summed `count` of admissible
measurements. -/
def specTreesAnalyzed (inv : List TreeMeasurement) : ℕ :=
  ((inv.filter keepTree).map (fun t => t.count.getD 1)).sum

/-! ## Fixtures: concrete provider behaviors used by witnesses -/

/-- A provider whose first core pixel-statistics fetch raises a timeout. -/
def failingDefoProvider : GeeDefo :=
  ⟨.error (.eeExc "timeout"), .ok (some 10), .ok "url",
    fun _ => .ok 0, fun _ => .ok "thumb"⟩

/-- An operation that raises a retryable timeout on every invocation. -/
def opTimeout : ℕ → OpOutcome ℕ := fun _ => .raise (.eeExc "timeout")

/-- A satellite provider reporting zero available images. -/
def noImagesProvider : GeeSat := ⟨10000, 0, none⟩

/-- A satellite provider with one image and mean NDVI 0.8 over 1 ha. -/
def oneImageProvider : GeeSat := ⟨10000, 1, some (4/5)⟩

/-- A measurement with positive dimensions but `count = 0`: it passes the
positivity filter yet contributes zero analyzed trees. -/
def zeroCountTree : TreeMeasurement := ⟨none, some 10, some 5, some 0⟩

/-- A well-formed measurement: 5 Eucalyptus of 30 cm DBH and 20 m height. -/
def eucalyptusTree : TreeMeasurement := ⟨some "Eucalyptus", some 30, some 20, some 5⟩

/-! ## Arithmetic helper lemmas -/

theorem roundHalfEven_intCast (n : ℤ) : roundHalfEven (n : ℚ) = n := by
  simp [roundHalfEven]

/-- Python `round(x, d)` is the identity on values that are exact multiples
of `10 ^ (-d)`. -/
theorem pyRound_of_intScale (d : ℕ) (x : ℚ) (n : ℤ) (h : x * 10 ^ d = (n : ℚ)) :
    pyRound d x = x := by
  unfold pyRound
  rw [h, roundHalfEven_intCast, ← h]
  field_simp

theorem pyRound_zero (d : ℕ) : pyRound d 0 = 0 :=
  pyRound_of_intScale d 0 0 (by norm_num)

/-! ## Field-method fold lemmas -/

/-- The inventory fold of `calculate_agb_from_field_data` computes the
spec-side filtered sums. -/
theorem fieldFold_spec (pow : ℚ → ℚ) (inv : List TreeMeasurement) (acc : ℚ × ℕ) :
    inv.foldl (fieldStep pow) acc =
      (acc.1 + specFieldAgbKg pow inv, acc.2 + specTreesAnalyzed inv) := by
  induction inv generalizing acc with
  | nil => simp [specFieldAgbKg, specTreesAnalyzed]
  | cons t ts ih =>
    by_cases hskip : t.dbh_cm.getD 0 ≤ 0 ∨ t.height_m.getD 0 ≤ 0
    · have hk : keepTree t = false := by
        rcases hskip with h | h <;>
          simp [keepTree, decide_eq_true_eq, not_lt.mpr h]
      simp only [List.foldl_cons, fieldStep, if_pos hskip, ih,
        specFieldAgbKg, specTreesAnalyzed, List.filter_cons, hk]
      simp
    · have hk : keepTree t = true := by
        push_neg at hskip
        simp [keepTree, decide_eq_true_eq, hskip.1, hskip.2]
      rw [List.foldl_cons, fieldStep, if_neg hskip, ih]
      simp only [specFieldAgbKg, specTreesAnalyzed, List.filter_cons, hk,
        if_true, List.map_cons, List.sum_cons, specTreeAgbKg]
      rw [Prod.mk.injEq]
      constructor
      · ring
      · omega

theorem calculate_agb_from_field_data_spec (pow : ℚ → ℚ)
    (inv : List TreeMeasurement) :
    calculate_agb_from_field_data pow inv =
      ⟨specFieldAgbKg pow inv, specFieldAgbKg pow inv / 1000,
        specTreesAnalyzed inv⟩ := by
  simp [calculate_agb_from_field_data, fieldFold_spec]

/-- A filtered inventory whose summed count is zero contributes zero biomass:
every admitted measurement must have `count = 0`. -/
theorem sum_specTreeAgb_zero (pow : ℚ → ℚ) :
    ∀ l : List TreeMeasurement,
      (l.map fun t => t.count.getD 1).sum = 0 →
      (l.map (specTreeAgbKg pow)).sum = 0
  | [], _ => by simp
  | t :: ts, h => by
    simp only [List.map_cons, List.sum_cons] at h ⊢
    have hc : t.count.getD 1 = 0 := by omega
    have hts : (ts.map fun t => t.count.getD 1).sum = 0 := by omega
    rw [specTreeAgbKg, hc, sum_specTreeAgb_zero pow ts hts]
    simp

theorem specFieldAgbKg_zero_of_no_trees (pow : ℚ → ℚ)
    (inv : List TreeMeasurement) (h : specTreesAnalyzed inv = 0) :
    specFieldAgbKg pow inv = 0 :=
  sum_specTreeAgb_zero pow (inv.filter keepTree) h

/-! ## Retry-loop lemmas -/

theorem retryAux_calls_pos {α : Type} (op : ℕ → OpOutcome α) (maxR : ℕ)
    (delay : ℚ) (name : String) (r a : ℕ) (last : Option PyExc) (hr : 1 ≤ r) :
    1 ≤ (retryAux op maxR delay name r a last).calls := by
  match r, hr with
  | r + 1, _ =>
    rw [retryAux]
    cases hop : op a with
    | ok v => simp
    | raise e =>
      cases e with
      | eeExc msg =>
        by_cases hm : isRetryableMsg msg = true
        · by_cases hA : a < maxR - 1 <;> simp [hm, hA]
        · simp [Bool.not_eq_true] at hm
          simp [hm]
      | otherExc m => simp
      | runtimeErr n k => simp

theorem retryAux_calls_le {α : Type} (op : ℕ → OpOutcome α) (maxR : ℕ)
    (delay : ℚ) (name : String) :
    ∀ (r a : ℕ) (last : Option PyExc),
      (retryAux op maxR delay name r a last).calls ≤ r
  | 0, a, last => by simp [retryAux]
  | r + 1, a, last => by
    rw [retryAux]
    cases hop : op a with
    | ok v => simp
    | raise e =>
      cases e with
      | eeExc msg =>
        by_cases hm : isRetryableMsg msg = true
        · by_cases hA : a < maxR - 1
          · simp only [hm, if_true, hA]
            have := retryAux_calls_le op maxR delay name r (a + 1)
              (some (.eeExc msg))
            omega
          · simp [hm, hA]
        · simp [Bool.not_eq_true] at hm
          simp [hm]
      | otherExc m => simp
      | runtimeErr n k => simp

/-- Every invocation that was followed by another invocation failed with a
retryable `ee.EEException`. -/
theorem retryAux_retryable_prefix {α : Type} (op : ℕ → OpOutcome α)
    (maxR : ℕ) (delay : ℚ) (name : String) :
    ∀ (r a : ℕ) (last : Option PyExc) (i : ℕ),
      i + 1 < (retryAux op maxR delay name r a last).calls →
      retryableAt op (a + i)
  | 0, a, last, i, h => by simp [retryAux] at h
  | r + 1, a, last, i, h => by
    rw [retryAux] at h
    cases hop : op a with
    | ok v => rw [hop] at h; simp at h
    | raise e =>
      rw [hop] at h
      cases e with
      | eeExc msg =>
        by_cases hm : isRetryableMsg msg = true
        · by_cases hA : a < maxR - 1
          · simp only [hm, if_true, hA] at h
            cases i with
            | zero => exact ⟨msg, hop, hm⟩
            | succ k =>
              have hk : k + 1 <
                  (retryAux op maxR delay name r (a + 1)
                    (some (.eeExc msg))).calls := by
                simp at h
                omega
              have := retryAux_retryable_prefix op maxR delay name r (a + 1)
                (some (.eeExc msg)) k hk
              have hI : a + 1 + k = a + (k + 1) := by omega
              rwa [hI] at this
          · simp [hm, hA] at h
        · simp only [Bool.not_eq_true] at hm
          simp [hm] at h
      | otherExc m => simp at h
      | runtimeErr n k => simp at h

/-- The backoff sleeps are exactly `delay * 2 ^ attempt` for the attempts
that were followed by a retry, in order. -/
theorem retryAux_sleeps {α : Type} (op : ℕ → OpOutcome α) (maxR : ℕ)
    (delay : ℚ) (name : String) :
    ∀ (r a : ℕ) (last : Option PyExc), a + r = maxR →
      (retryAux op maxR delay name r a last).sleeps =
        (List.range ((retryAux op maxR delay name r a last).calls - 1)).map
          (fun i => delay * 2 ^ (a + i))
  | 0, a, last, _ => by simp [retryAux]
  | r + 1, a, last, hinv => by
    rw [retryAux]
    cases hop : op a with
    | ok v => simp
    | raise e =>
      cases e with
      | eeExc msg =>
        by_cases hm : isRetryableMsg msg = true
        · by_cases hA : a < maxR - 1
          · have hr1 : 1 ≤ r := by omega
            have hc1 := retryAux_calls_pos op maxR delay name r (a + 1)
              (some (.eeExc msg)) hr1
            have ih := retryAux_sleeps op maxR delay name r (a + 1)
              (some (.eeExc msg)) (by omega)
            simp only [hm, if_true, hA]
            obtain ⟨c, hc⟩ :
                ∃ c, (retryAux op maxR delay name r (a + 1)
                  (some (.eeExc msg))).calls = c + 1 :=
              ⟨_, (Nat.succ_pred_eq_of_pos hc1).symm⟩
            rw [ih, hc]
            simp only [Nat.add_sub_cancel, List.range_succ_eq_map,
              List.map_cons, List.map_map, Function.comp_def]
            refine congrArg₂ List.cons (by simp) ?_
            refine List.map_congr_left fun i _ => ?_
            congr 1
            congr 1
            omega
          · simp [hm, hA]
        · simp only [Bool.not_eq_true] at hm
          simp [hm]
      | otherExc m => simp
      | runtimeErr n k => simp

/-- When every attempt fails with a retryable error, the loop performs all
`r` remaining invocations and re-raises the error of the last attempt. -/
theorem retryAux_exhaust {α : Type} (op : ℕ → OpOutcome α) (maxR : ℕ)
    (delay : ℚ) (name : String) :
    ∀ (r a : ℕ) (last : Option PyExc), a + r = maxR → 1 ≤ r →
      (∀ i, a ≤ i → i < maxR → retryableAt op i) →
      (retryAux op maxR delay name r a last).calls = r ∧
      ∃ msg, op (maxR - 1) = .raise (.eeExc msg) ∧
        (retryAux op maxR delay name r a last).result = .error (.eeExc msg)
  | 0, a, last, hinv, hr, hall => by omega
  | r + 1, a, last, hinv, hr, hall => by
    obtain ⟨msg, hopa, hm⟩ := hall a le_rfl (by omega)
    rw [retryAux, hopa]
    by_cases hA : a < maxR - 1
    · have ih := retryAux_exhaust op maxR delay name r (a + 1)
        (some (.eeExc msg)) (by omega) (by omega)
        (fun i h1 h2 => hall i (by omega) h2)
      obtain ⟨hcalls, msg2, h1, h2⟩ := ih
      refine ⟨?_, msg2, h1, ?_⟩ <;> simp only [hm, if_true, hA]
      · omega
      · exact h2
    · have ha : a = maxR - 1 := by omega
      have hr0 : r = 0 := by omega
      refine ⟨?_, msg, by rw [← ha]; exact hopa, ?_⟩ <;> simp [hm, hA, hr0]

/-- A non-retryable failure at attempt `i`, preceded only by retryable
failures, stops the loop at `i` with that error re-raised. -/
theorem retryAux_first_bad {α : Type} (op : ℕ → OpOutcome α) (maxR : ℕ)
    (delay : ℚ) (name : String) :
    ∀ (r a : ℕ) (last : Option PyExc), a + r = maxR →
      ∀ (i : ℕ) (e : PyExc), a ≤ i → i < maxR → op i = .raise e →
        nonRetryableExc e →
        (∀ j, a ≤ j → j < i → retryableAt op j) →
        (retryAux op maxR delay name r a last).calls = i - a + 1 ∧
        (retryAux op maxR delay name r a last).result = .error e
  | 0, a, last, hinv, i, e, hai, hiM, hop, hne, hpre => by omega
  | r + 1, a, last, hinv, i, e, hai, hiM, hop, hne, hpre => by
    by_cases hia : i = a
    · subst hia
      rw [retryAux, hop]
      cases e with
      | eeExc msg =>
        have hne2 : isRetryableMsg msg = false := hne
        simp [hne2]
      | otherExc m => simp
      | runtimeErr n k => simp
    · obtain ⟨msg, hopa, hm⟩ := hpre a le_rfl (by omega)
      rw [retryAux, hopa]
      have hA : a < maxR - 1 := by omega
      have ih := retryAux_first_bad op maxR delay name r (a + 1)
        (some (.eeExc msg)) (by omega) i e (by omega) hiM hop hne
        (fun j h1 h2 => hpre j (by omega) h2)
      simp only [hm, if_true, hA]
      refine ⟨?_, ih.2⟩
      have := ih.1
      omega

/-! ## Geometry-normalizer lemmas -/

theorem stripZ_arr_num (q : ℚ) (rest : List Coords) :
    stripZ (.arr (.num q :: rest)) = .arr (List.take 2 (.num q :: rest)) := by
  simp [stripZ]

theorem stripZ_arr_nil : stripZ (.arr []) = .arr [] := by
  simp [stripZ]

theorem stripZ_arr_arrHead (x : List Coords) (cs : List Coords) :
    stripZ (.arr (.arr x :: cs)) = .arr (stripZ (.arr x) :: cs.map stripZ) := by
  rw [stripZ]
  · simp [List.attach_map_val]
  · intro q rest h
    exact absurd h (by simp)

theorem stripZ_arr_otherHead (cs : List Coords) :
    stripZ (.arr (.other :: cs)) = .arr (.other :: cs.map stripZ) := by
  rw [stripZ]
  · simp [List.attach_map_val, stripZ]
  · intro q rest h
    exact absurd h (by simp)

/-- Stripping a list keeps its list-ness (needed for the MultiPolygon
`coords_2d[0]` access). -/
theorem stripZ_arr_shape (l : List Coords) :
    ∃ l2, stripZ (.arr l) = .arr l2 := by
  match l with
  | [] => exact ⟨[], stripZ_arr_nil⟩
  | .num q :: rest => exact ⟨_, stripZ_arr_num q rest⟩
  | .arr x :: cs => exact ⟨_, stripZ_arr_arrHead x cs⟩
  | .other :: cs => exact ⟨_, stripZ_arr_otherHead cs⟩

/-- On a vertex (a list of numbers), stripping is truncation to the first
two components. -/
theorem stripZ_vertex (v : List ℚ) :
    stripZ (.arr (v.map Coords.num)) = .arr ((v.take 2).map Coords.num) := by
  cases v with
  | nil => simp [stripZ]
  | cons x rest => simp [stripZ, List.map_take]

/-- On a ring (a list of vertices), stripping truncates every vertex. -/
theorem stripZ_ring (ring : List (List ℚ)) :
    stripZ (ringCoords ring) = ringCoords (ring.map fun v => v.take 2) := by
  cases ring with
  | nil => simp [ringCoords, stripZ]
  | cons v vs =>
    rw [ringCoords]
    simp only [List.map_cons]
    rw [stripZ_arr_arrHead]
    simp [List.map_map, Function.comp_def, stripZ_vertex, ringCoords]

/-- On polygon coordinates (a list of rings), stripping truncates every
vertex of every ring. -/
theorem stripZ_polygon (rings : List (List (List ℚ))) :
    stripZ (polygonCoords rings) =
      polygonCoords (rings.map (List.map fun v => v.take 2)) := by
  cases rings with
  | nil => simp [polygonCoords, stripZ]
  | cons r rs =>
    rw [polygonCoords]
    simp only [List.map_cons]
    rw [show ringCoords r = .arr (r.map fun v => .arr (v.map Coords.num)) from
      rfl, stripZ_arr_arrHead]
    simp only [List.map_map]
    rw [polygonCoords]
    simp only [List.map_cons, List.map_map]
    refine congrArg Coords.arr (congrArg₂ List.cons ?_ ?_)
    · rw [← ringCoords, stripZ_ring]
    · refine List.map_congr_left fun x _ => ?_
      show stripZ (ringCoords x) = ringCoords (x.map fun v => v.take 2)
      exact stripZ_ring x

/-! ## Claim theorems -/

/-- C1: if either core pixel-statistics fetch of the deforestation analyzer
raises, `analyze_deforestation` does not propagate the failure: it returns
the fail-open default with `deforestationPercent`, `areaLostHa` and
`initialForestHa` all zero, `compliant = true`, and an explicit warning. -/
theorem analyze_deforestation_fail_open (g : GeeDefo) (sd ed : String)
    (sy ey : ℕ)
    (h : (∃ e, g.areaInfo = .error e) ∨ (∃ e, g.lossInfo = .error e)) :
    (analyze_deforestation g sd ed sy ey).deforestationPercent = 0 ∧
    (analyze_deforestation g sd ed sy ey).areaLostHa = 0 ∧
    (analyze_deforestation g sd ed sy ey).initialForestHa = 0 ∧
    (analyze_deforestation g sd ed sy ey).compliant = true ∧
    (analyze_deforestation g sd ed sy ey).warning =
      some "Deforestation calculation failed, using default values" := by
  cases ha : g.areaInfo with
  | error e1 => cases hl : g.lossInfo <;> simp [analyze_deforestation, ha, hl]
  | ok v =>
    cases hl : g.lossInfo with
    | error e2 => simp [analyze_deforestation, ha, hl]
    | ok w =>
      exfalso
      rcases h with ⟨e, he⟩ | ⟨e, he⟩
      · rw [ha] at he; exact Except.noConfusion he
      · rw [hl] at he; exact Except.noConfusion he

theorem analyze_deforestation_fail_open_witness :
    ((∃ e, failingDefoProvider.areaInfo = .error e) ∨
      (∃ e, failingDefoProvider.lossInfo = .error e)) ∧
    (analyze_deforestation failingDefoProvider "2019-01-01" "2024-01-01"
      2019 2024).warning =
      some "Deforestation calculation failed, using default values" :=
  ⟨Or.inl ⟨_, rfl⟩,
    (analyze_deforestation_fail_open failingDefoProvider "2019-01-01"
      "2024-01-01" 2019 2024 (Or.inl ⟨_, rfl⟩)).2.2.2.2⟩

/-- C2: the analyzer computes `deforestationPercent = lost / initial × 100`
with the zero guard for `initial = 0`, and `compliant = true` exactly when
the percentage is below 5; the percentage 4.999 is compliant and exactly 5.0
is not. -/
theorem deforestation_percent_formula (lost initial : ℚ) (h : 0 ≤ initial) :
    deforestationPercentOf lost initial =
      (if initial = 0 then 0 else lost / initial * 100) ∧
    (eudrCompliant (deforestationPercentOf lost initial) = true ↔
      deforestationPercentOf lost initial < 5) ∧
    eudrCompliant (4999/1000) = true ∧ eudrCompliant 5 = false := by
  refine ⟨?_, by simp [eudrCompliant], by norm_num [eudrCompliant],
    by norm_num [eudrCompliant]⟩
  by_cases h0 : initial = 0
  · simp [deforestationPercentOf, h0]
  · have hpos : 0 < initial := lt_of_le_of_ne h (Ne.symm h0)
    simp [deforestationPercentOf, h0, hpos]

theorem deforestation_percent_formula_witness :
    (0:ℚ) ≤ 100 ∧ deforestationPercentOf 3 100 =
      (if (100:ℚ) = 0 then 0 else 3 / 100 * 100) :=
  ⟨by norm_num, (deforestation_percent_formula 3 100 (by norm_num)).1⟩

/-- C3 (counterexample to the claim as stated): with zero available images,
the `EstimationResult` returned by `calculate_carbon_baseline` carries
`methodology = "satellite"` — the requested method — not
`"default_estimation"`, even though its figures are the default estimate
(agb/ha = 50). -/
theorem satellite_default_estimation_cex :
    (calculate_carbon_baseline (fun x => x) noImagesProvider none
      "satellite").methodology = "satellite" ∧
    (calculate_carbon_baseline (fun x => x) noImagesProvider none
      "satellite").agbTonnesPerHa = 50 ∧
    "satellite" ≠ "default_estimation" := by
  have h50 : pyRound 2 (50:ℚ) = 50 := pyRound_of_intScale 2 50 5000 (by norm_num)
  refine ⟨rfl, ?_, by decide⟩
  simp [calculate_carbon_baseline, calculate_agb_from_satellite, nonEmptyInv,
    noImagesProvider, h50]

/-- C3 (amended): with zero available images the inner satellite estimate
has `agb_per_ha = 50`, `total_agb_tonnes = 50 × areaHa` and its `method`
field — not the final result's `methodology` — equals
`"default_estimation"`; the final `EstimationResult` keeps the default
figures but reports `methodology = "satellite"`, the requested method. -/
theorem satellite_default_estimation (pow : ℚ → ℚ) (g : GeeSat)
    (h : g.collectionSize = 0) :
    (calculate_agb_from_satellite g).agb_per_ha = 50 ∧
    (calculate_agb_from_satellite g).total_agb_tonnes =
      g.areaM2 / 10000 * 50 ∧
    (calculate_agb_from_satellite g).method = "default_estimation" ∧
    (calculate_carbon_baseline pow g none "satellite").methodology =
      "satellite" ∧
    (calculate_carbon_baseline pow g none "satellite").agbTonnesPerHa = 50 ∧
    (calculate_carbon_baseline pow g none "satellite").totalAgbTonnes =
      pyRound 2 (g.areaM2 / 10000 * 50) := by
  have h50 : pyRound 2 (50:ℚ) = 50 := pyRound_of_intScale 2 50 5000 (by norm_num)
  simp [calculate_agb_from_satellite, calculate_carbon_baseline, nonEmptyInv,
    h, h50]

theorem satellite_default_estimation_witness :
    noImagesProvider.collectionSize = 0 ∧
    (calculate_agb_from_satellite noImagesProvider).method =
      "default_estimation" :=
  ⟨rfl, (satellite_default_estimation (fun x => x) noImagesProvider
    rfl).2.2.1⟩

/-- C4 (counterexample to the claim as stated): requesting `field` with no
inventory falls back to the satellite computation but the result's
`methodology` still reads `"field"` — identical to a genuine field run — so
downstream consumers cannot detect the fallback from the `methodology`
field. -/
theorem field_without_inventory_cex :
    (calculate_carbon_baseline (fun x => x) noImagesProvider none
      "field").methodology = "field" ∧
    (calculate_carbon_baseline (fun x => x) noImagesProvider
      (some [eucalyptusTree]) "field").methodology = "field" := ⟨rfl, rfl⟩

/-- C4 (amended): requesting `field` or `hybrid` with an absent or empty
inventory raises no error and computes exactly the satellite-based estimate
(the `else` branch of the dispatch); every field of the result coincides
with a `satellite` run except `methodology`, which still carries the
requested method name and therefore does not reveal the fallback. -/
theorem field_without_inventory_fallback (pow : ℚ → ℚ) (g : GeeSat)
    (inv : Option (List TreeMeasurement)) (method : String)
    (hm : method = "field" ∨ method = "hybrid")
    (hinv : nonEmptyInv inv = false) :
    calculate_carbon_baseline pow g inv method =
      { calculate_carbon_baseline pow g inv "satellite" with
        methodology := method } := by
  rcases hm with rfl | rfl <;> simp [calculate_carbon_baseline, hinv]

theorem field_without_inventory_fallback_witness :
    nonEmptyInv (none : Option (List TreeMeasurement)) = false ∧
    calculate_carbon_baseline (fun x => x) noImagesProvider none "field" =
      { calculate_carbon_baseline (fun x => x) noImagesProvider none
          "satellite" with methodology := "field" } :=
  ⟨rfl, field_without_inventory_fallback (fun x => x) noImagesProvider none
    "field" (Or.inl rfl) rfl⟩

/-- C5: for every operation behavior and `maxRetries ≥ 1`, the retry
executor invokes the operation at most `maxRetries` times; every invocation
that was followed by another one had raised a retryable (timeout /
rate-limit / quota) `ee.EEException`; the backoff sleeps are exactly
`delay * 2 ^ attempt` for those retried attempts, in order; if every attempt
fails retryably, all `maxRetries` invocations happen and the last error is
re-raised; and a non-retryable failure — including any non-EE exception —
occurring first at attempt `i` stops the loop immediately (`i + 1` calls in
total) with that error re-raised. -/
theorem retry_ee_operation_behavior {α : Type} (op : ℕ → OpOutcome α)
    (maxRetries : ℕ) (delay : ℚ) (name : String) (h : 1 ≤ maxRetries) :
    (retry_ee_operation op maxRetries delay name).calls ≤ maxRetries ∧
    (∀ i, i + 1 < (retry_ee_operation op maxRetries delay name).calls →
      retryableAt op i) ∧
    (retry_ee_operation op maxRetries delay name).sleeps =
      (List.range
        ((retry_ee_operation op maxRetries delay name).calls - 1)).map
        (fun i => delay * 2 ^ i) ∧
    ((∀ i, i < maxRetries → retryableAt op i) →
      (retry_ee_operation op maxRetries delay name).calls = maxRetries ∧
      ∃ msg, op (maxRetries - 1) = .raise (.eeExc msg) ∧
        (retry_ee_operation op maxRetries delay name).result =
          .error (.eeExc msg)) ∧
    (∀ i e, i < maxRetries → op i = .raise e → nonRetryableExc e →
      (∀ j, j < i → retryableAt op j) →
      (retry_ee_operation op maxRetries delay name).calls = i + 1 ∧
      (retry_ee_operation op maxRetries delay name).result = .error e) := by
  unfold retry_ee_operation
  refine ⟨retryAux_calls_le op maxRetries delay name maxRetries 0 none,
    ?_, ?_, ?_, ?_⟩
  · intro i hi
    have := retryAux_retryable_prefix op maxRetries delay name maxRetries 0
      none i hi
    simpa using this
  · have := retryAux_sleeps op maxRetries delay name maxRetries 0 none
      (by omega)
    simpa using this
  · intro hall
    exact retryAux_exhaust op maxRetries delay name maxRetries 0 none
      (by omega) h (fun i _ h2 => hall i h2)
  · intro i e hiM hop hne hpre
    have := retryAux_first_bad op maxRetries delay name maxRetries 0 none
      (by omega) i e (by omega) hiM hop hne (fun j _ h2 => hpre j h2)
    simpa using this

theorem retry_ee_operation_behavior_witness :
    1 ≤ 2 ∧ (retry_ee_operation opTimeout 2 2 "op").calls ≤ 2 :=
  ⟨by norm_num, (retry_ee_operation_behavior opTimeout 2 2 "op"
    (by norm_num)).1⟩

/-- C6 (counterexample to the claim as stated): a `Point` geometry is a
mapping with `type` and `coordinates`, is accepted without error, and is
returned with `type = "Point"` — the normalizer's output type is not always
`"Polygon"`. -/
theorem normalize_geometry_cex :
    normalize_geometry ⟨some "Point", some (.arr [.num 1, .num 2, .num 3])⟩ =
      .ok ⟨"Point", .arr [.num 1, .num 2]⟩ ∧ "Point" ≠ "Polygon" := by
  constructor
  · simp [normalize_geometry, stripZ_arr_num]
  · decide

/-- C6 (amended): for accepted inputs the normalizer returns a
`{type, coordinates}` object whose type equals the INPUT type — so it is
`"Polygon"` for Polygon inputs — except that a MultiPolygon is downgraded to
its first constituent polygon with type `"Polygon"` (the remaining polygons
are discarded); coordinates are recursively stripped so that every vertex
keeps exactly its first two numeric components. -/
theorem normalize_geometry_amended (t : String) (c : Coords)
    (x cs : List Coords) (rings : List (List (List ℚ))) (a b : ℚ)
    (rest : List Coords) (h1 : t ≠ "") (h2 : t ≠ "MultiPolygon") :
    normalize_geometry ⟨some t, some c⟩ = .ok ⟨t, stripZ c⟩ ∧
    normalize_geometry ⟨some "MultiPolygon", some (.arr (.arr x :: cs))⟩ =
      .ok ⟨"Polygon", stripZ (.arr x)⟩ ∧
    stripZ (polygonCoords rings) =
      polygonCoords (rings.map (List.map fun v => v.take 2)) ∧
    stripZ (.arr (.num a :: .num b :: rest)) = .arr [.num a, .num b] := by
  refine ⟨by simp [normalize_geometry, h1, h2], ?_, stripZ_polygon rings, ?_⟩
  · obtain ⟨l2, hl2⟩ := stripZ_arr_shape x
    simp [normalize_geometry, stripZ_arr_arrHead, hl2]
  · simp [stripZ_arr_num]

theorem normalize_geometry_amended_witness :
    ("LineString" ≠ "" ∧ "LineString" ≠ "MultiPolygon") ∧
    normalize_geometry ⟨some "LineString", some (.arr [])⟩ =
      .ok ⟨"LineString", stripZ (.arr [])⟩ :=
  ⟨⟨by decide, by decide⟩,
    (normalize_geometry_amended "LineString" (.arr []) [] [] [] 0 0 []
      (by decide) (by decide)).1⟩

/-- C7: the field method's total AGB in tonnes is the sum, over measurements
with positive diameter and height, of
`count × 0.0673 × (ρ × DBH² × H)^0.976` kilograms divided by 1000, where ρ
is the exact-species wood-density entry and the `default` entry (0.60) when
the species is absent from the table; non-positive measurements are skipped
silently; and the field run's confidence is `high` exactly when the summed
analyzed-tree count is at least 10, else `medium`. -/
theorem field_method_agb_spec (pow : ℚ → ℚ) (g : GeeSat)
    (inv : List TreeMeasurement) (hinv : inv ≠ []) :
    (calculate_agb_from_field_data pow inv).total_agb_tonnes =
      specFieldAgbKg pow inv / 1000 ∧
    (calculate_agb_from_field_data pow inv).trees_analyzed =
      specTreesAnalyzed inv ∧
    (∀ s d, WOOD_DENSITY s = some d → woodDensity s = d) ∧
    (∀ s, WOOD_DENSITY s = none → woodDensity s = 0.60) ∧
    (calculate_carbon_baseline pow g (some inv) "field").confidence =
      (if 10 ≤ specTreesAnalyzed inv then "high" else "medium") := by
  refine ⟨by simp [calculate_agb_from_field_data_spec],
    by simp [calculate_agb_from_field_data_spec],
    fun s d hd => by simp [woodDensity, hd],
    fun s hs => by simp [woodDensity, hs], ?_⟩
  match inv, hinv with
  | t :: ts, _ =>
    simp [calculate_carbon_baseline, nonEmptyInv,
      calculate_agb_from_field_data_spec]

theorem field_method_agb_spec_witness :
    ([eucalyptusTree] ≠ []) ∧
    (calculate_agb_from_field_data (fun x => x)
      [eucalyptusTree]).trees_analyzed = specTreesAnalyzed [eucalyptusTree] :=
  ⟨List.cons_ne_nil _ _,
    (field_method_agb_spec (fun x => x) noImagesProvider [eucalyptusTree]
      (List.cons_ne_nil _ _)).2.1⟩

/-- C8 (counterexample to the claim as stated): with a nonempty inventory
whose analyzed-tree count is 0 and a satellite estimate of 96 t, the hybrid
total AGB is 67.2 t — that is `0.7 ×` the satellite estimate, not the
satellite estimate itself. -/
theorem hybrid_zero_trees_cex :
    (calculate_agb_from_field_data (fun x => x)
      [zeroCountTree]).trees_analyzed = 0 ∧
    (calculate_carbon_baseline (fun x => x) oneImageProvider
        (some [zeroCountTree]) "hybrid").totalAgbTonnes ≠
      (calculate_agb_from_satellite oneImageProvider).total_agb_tonnes := by
  have hsat : (calculate_agb_from_satellite oneImageProvider).total_agb_tonnes
      = 96 := by
    norm_num [calculate_agb_from_satellite, oneImageProvider, min_def, max_def]
  have hfield : calculate_agb_from_field_data (fun x => x) [zeroCountTree] =
      ⟨0, 0, 0⟩ := by
    norm_num [calculate_agb_from_field_data, fieldStep, zeroCountTree]
  constructor
  · rw [hfield]
  · have hpr : pyRound 2 ((336:ℚ)/5) = 336/5 :=
      pyRound_of_intScale 2 _ 6720 (by norm_num)
    rw [hsat]
    simp [calculate_carbon_baseline, nonEmptyInv, hfield, hsat, fieldWeightOf,
      min_def]
    norm_num [hpr]

/-- C8 (amended): for a nonempty inventory whose analyzed-tree count is 0,
the hybrid field weight is exactly `min(0.7, 0.3 + 0/100) = 0.3` (not 0),
the field term vanishes, and the hybrid total AGB equals
`(1 − 0.3) = 0.7` times the satellite estimate — not the satellite estimate
itself. -/
theorem hybrid_zero_trees (pow : ℚ → ℚ) (g : GeeSat) (t : TreeMeasurement)
    (ts : List TreeMeasurement)
    (h0 : (calculate_agb_from_field_data pow (t :: ts)).trees_analyzed = 0) :
    fieldWeightOf 0 = 3/10 ∧
    (calculate_carbon_baseline pow g (some (t :: ts)) "hybrid").totalAgbTonnes
      = pyRound 2 ((1 - fieldWeightOf 0) *
        (calculate_agb_from_satellite g).total_agb_tonnes) ∧
    (calculate_carbon_baseline pow g (some (t :: ts)) "hybrid").treesAnalyzed
      = 0 := by
  rw [calculate_agb_from_field_data_spec] at h0
  simp only at h0
  have hkg : specFieldAgbKg pow (t :: ts) = 0 :=
    specFieldAgbKg_zero_of_no_trees pow _ h0
  refine ⟨by norm_num [fieldWeightOf], ?_, ?_⟩ <;>
    simp [calculate_carbon_baseline, nonEmptyInv,
      calculate_agb_from_field_data_spec, h0, hkg, fieldWeightOf, mul_comm]

theorem hybrid_zero_trees_witness :
    (calculate_agb_from_field_data (fun x => x)
      [zeroCountTree]).trees_analyzed = 0 ∧ fieldWeightOf 0 = 3/10 := by
  have h0 : (calculate_agb_from_field_data (fun x => x)
      [zeroCountTree]).trees_analyzed = 0 := by
    norm_num [calculate_agb_from_field_data, fieldStep, zeroCountTree]
  exact ⟨h0, (hybrid_zero_trees (fun x => x) oneImageProvider zeroCountTree
    [] h0).1⟩

/-- C9: with `max_retries = 0` the loop body never runs, the operation is
never invoked, no sleep happens, and — since `last_error` is unset — the
`RuntimeError` reporting failure after 0 attempts is raised. -/
theorem retry_zero_retries {α : Type} (op : ℕ → OpOutcome α) (delay : ℚ)
    (name : String) :
    retry_ee_operation op 0 delay name =
      ⟨0, [], .error (.runtimeErr name 0)⟩ := rfl

/-- C10: in the field and hybrid branches (method requested with a nonempty
inventory), a polygon whose computed area is 0 does not divide by zero:
`agbTonnesPerHa` is set to 0, in both `carbon_baseline.py` and the
`analyze_farm.py` duplicate. -/
theorem carbon_baseline_zero_area_guard (pow : ℚ → ℚ) (g : GeeSat)
    (t : TreeMeasurement) (ts : List TreeMeasurement) (method : String)
    (hm : method = "field" ∨ method = "hybrid") (ha : g.areaM2 = 0) :
    (calculate_carbon_baseline pow g (some (t :: ts)) method).agbTonnesPerHa
      = 0 ∧
    (af_calculate_carbon_baseline pow g (some (t :: ts))).agbTonnesPerHa
      = 0 := by
  rcases hm with rfl | rfl <;>
    simp [calculate_carbon_baseline, af_calculate_carbon_baseline,
      nonEmptyInv, ha, pyRound_zero]

theorem carbon_baseline_zero_area_guard_witness :
    (("field" = "field" ∨ ("field" : String) = "hybrid") ∧
      (⟨0, 0, none⟩ : GeeSat).areaM2 = 0) ∧
    (calculate_carbon_baseline (fun x => x) ⟨0, 0, none⟩
      (some [eucalyptusTree]) "field").agbTonnesPerHa = 0 :=
  ⟨⟨Or.inl rfl, rfl⟩,
    (carbon_baseline_zero_area_guard (fun x => x) ⟨0, 0, none⟩
      eucalyptusTree [] "field" (Or.inl rfl) rfl).1⟩
